import Mathlib

/-!
Verification of the `recommenders` repository snapshot.

The snapshot holds three source files:
  * `src/unnamed/part_000` — an Azure Pipelines YAML file for the nightly
    Windows CPU test run;
  * `src/examples/00_quick_start/sequential_recsys_amazondataset.ipynb` —
    the SLi_Rec quick-start notebook (train, evaluate, predict, freeze to a
    serving graph, and the `infer_as_serving` serving function);
  * `src/examples/00_quick_start/xdeepfm_criteo.ipynb` — the xDeepFM
    quick-start notebook.

The model implementations themselves (`reco_utils.recommender.deeprec.*`)
are imported by the notebooks but are not part of the snapshot; where a
property depends on them they are modelled from the specification and the
notebooks' own documentation, and the corresponding definition's doc
comment says so explicitly.
-/

namespace Recommenders

/-! ## The nightly CI pipeline (src/unnamed/part_000) -/

/-- One atom of a pytest `-m` marker expression: either a marker that must be
present, or (`not m`) a marker that must be absent. -/
inductive MarkCond where
  | req (m : String) : MarkCond
  | excl (m : String) : MarkCond
deriving DecidableEq, Repr

/-- Semantics of a conjunctive pytest `-m "a and not b and not c"` expression
evaluated on the marker list of a collected test. -/
def evalMarkExpr (conds : List MarkCond) (markers : List String) : Bool :=
  conds.all fun c =>
    match c with
    | MarkCond.req m => markers.contains m
    | MarkCond.excl m => !(markers.contains m)

/-- The `-m` expression of the smoke pytest invocation in the `Run Tests`
step of the nightly pipeline: `"smoke and not spark and not gpu"`. -/
def smokeMarkExpr : List MarkCond :=
  [MarkCond.req "smoke", MarkCond.excl "spark", MarkCond.excl "gpu"]

/-- The `-m` expression of the integration pytest invocation in the
`Run Tests` step: `"integration and not spark and not gpu"`. -/
def integrationMarkExpr : List MarkCond :=
  [MarkCond.req "integration", MarkCond.excl "spark", MarkCond.excl "gpu"]

/-- A collected pytest test: its name and the markers it carries. -/
structure PyTest where
  name : String
  markers : List String
deriving DecidableEq, Repr

/-- A pytest invocation with a `-m` expression executes exactly the collected
tests whose markers satisfy the expression. -/
def pytestSelect (expr : List MarkCond) (collected : List PyTest) : List PyTest :=
  collected.filter fun t => evalMarkExpr expr t.markers

/-- The tests executed by the nightly pipeline's `Run Tests` step: first the
smoke invocation over `tests/smoke`, then the integration invocation over
`tests/integration` (src/unnamed/part_000, lines 44-50). -/
def nightlyRunTests (smokeCollected integrationCollected : List PyTest) : List PyTest :=
  pytestSelect smokeMarkExpr smokeCollected ++
    pytestSelect integrationMarkExpr integrationCollected

/-- Display names of the steps of the nightly job, in pipeline order
(src/unnamed/part_000). -/
def nightlyStepNames : List String :=
  ["Remove Conda Env if it exists", "Setup Conda Env", "Run Tests",
   "Publish Test Results ", "Conda remove", "Remove Temp Files"]

/-- The display name of the single job of the nightly pipeline. -/
def nightlyJobDisplayName : String := "Nightly tests Windows CPU"

theorem evalMarkExpr_smoke (markers : List String) :
    evalMarkExpr smokeMarkExpr markers = true ↔
      markers.contains "smoke" = true ∧ markers.contains "spark" = false ∧
        markers.contains "gpu" = false := by
  simp [evalMarkExpr, smokeMarkExpr, List.all_cons]

theorem evalMarkExpr_integration (markers : List String) :
    evalMarkExpr integrationMarkExpr markers = true ↔
      markers.contains "integration" = true ∧ markers.contains "spark" = false ∧
        markers.contains "gpu" = false := by
  simp [evalMarkExpr, integrationMarkExpr, List.all_cons]

/-- **C8.** Whatever tests are collected, every test executed by the nightly
pipeline's `Run Tests` step carries the `smoke` marker (when run by the smoke
invocation) or the `integration` marker (when run by the integration
invocation), and carries neither the `spark` marker nor the `gpu` marker: the
nightly Windows CPU pipeline never executes a Spark or GPU test. -/
theorem nightly_never_runs_spark_or_gpu
    (smokeCollected integrationCollected : List PyTest) (t : PyTest)
    (ht : t ∈ nightlyRunTests smokeCollected integrationCollected) :
    (t.markers.contains "spark" = false ∧ t.markers.contains "gpu" = false) ∧
      (t.markers.contains "smoke" = true ∨ t.markers.contains "integration" = true) ∧
      (t ∈ pytestSelect smokeMarkExpr smokeCollected →
        t.markers.contains "smoke" = true) ∧
      (t ∈ pytestSelect integrationMarkExpr integrationCollected →
        t.markers.contains "integration" = true) := by
  have hsmoke : ∀ u : PyTest, u ∈ pytestSelect smokeMarkExpr smokeCollected →
      u.markers.contains "smoke" = true ∧ u.markers.contains "spark" = false ∧
        u.markers.contains "gpu" = false := by
    intro u hu
    have := List.of_mem_filter hu
    exact (evalMarkExpr_smoke u.markers).mp this
  have hint : ∀ u : PyTest, u ∈ pytestSelect integrationMarkExpr integrationCollected →
      u.markers.contains "integration" = true ∧ u.markers.contains "spark" = false ∧
        u.markers.contains "gpu" = false := by
    intro u hu
    have := List.of_mem_filter hu
    exact (evalMarkExpr_integration u.markers).mp this
  rcases List.mem_append.mp ht with h | h
  · obtain ⟨h1, h2, h3⟩ := hsmoke t h
    exact ⟨⟨h2, h3⟩, Or.inl h1, fun _ => h1, fun hu => (hint t hu).1⟩
  · obtain ⟨h1, h2, h3⟩ := hint t h
    exact ⟨⟨h2, h3⟩, Or.inr h1, fun hu => (hsmoke t hu).1, fun _ => h1⟩

/-- Witness for C8: a concrete collection where the smoke directory holds one
`smoke`-marked test and one `spark`-marked test; the executed test is the
smoke one and the conclusion evaluates as stated. -/
theorem nightly_never_runs_spark_or_gpu_witness :
    (PyTest.mk "test_a" ["smoke"] ∈
        nightlyRunTests [PyTest.mk "test_a" ["smoke"], PyTest.mk "test_b" ["spark"]] []) ∧
      ((PyTest.mk "test_a" ["smoke"]).markers.contains "spark" = false ∧
        (PyTest.mk "test_a" ["smoke"]).markers.contains "gpu" = false) := by
  refine ⟨by decide, ?_⟩
  have h := nightly_never_runs_spark_or_gpu
    [PyTest.mk "test_a" ["smoke"], PyTest.mk "test_b" ["spark"]] []
    (PyTest.mk "test_a" ["smoke"]) (by decide)
  exact h.1

/-! ## The serving path of the sequential notebook

`infer_as_serving` (sequential_recsys_amazondataset.ipynb, cell 18) iterates
the batches the iterator yields from the input file, skips falsy batches,
runs the frozen graph's `pred` node on each remaining batch through the
session, extends a flat list of scores with the flattened result, and finally
opens the output file in mode `"w"` and writes one formatted line per score.

The embedding is parametric in the batch type `β` and the score type `α`:
the session run of the `pred` node is a parameter `sessRunPred : β → List α`
(already flattened, as `np.reshape(step_pred, -1)` does), and a falsy batch
is `none`. The file system is a map from path to line list. -/

/-- The `preds` list accumulated by the loop of `infer_as_serving`: for each
batch yielded by `iterator.load_data_from_file`, if the batch is truthy the
flattened session run of the `pred` node is appended. -/
def servingPreds {β α : Type} (sessRunPred : β → List α)
    (batches : List (Option β)) : List α :=
  batches.foldl
    (fun preds ob =>
      match ob with
      | none => preds
      | some b => preds ++ sessRunPred b)
    []

/-- The whole of `infer_as_serving` acting on a file system: after the loop,
`open(outfile, "w")` truncates the output file and one line per accumulated
score is written; every other path is untouched. -/
def infer_as_serving {β α : Type} (fmt : α → String) (sessRunPred : β → List α)
    (batches : List (Option β)) (outfile : String)
    (fs : String → List String) : String → List String :=
  fun path =>
    if path = outfile then (servingPreds sessRunPred batches).map fmt
    else fs path

theorem servingPreds_append {β α : Type} (f : β → List α)
    (bs : List (Option β)) (acc : List α) :
    bs.foldl
        (fun preds ob =>
          match ob with
          | none => preds
          | some b => preds ++ f b)
        acc = acc ++ ((bs.filterMap id).map f).flatten := by
  induction bs generalizing acc with
  | nil => simp
  | cons hd tl ih =>
    cases hd with
    | none => simpa using ih acc
    | some b => simp [ih (acc ++ f b)]

/-- The accumulated serving scores are the per-batch session-run results of
the truthy batches, flattened in iterator order. -/
theorem servingPreds_eq_flatten {β α : Type} (f : β → List α)
    (bs : List (Option β)) :
    servingPreds f bs = ((bs.filterMap id).map f).flatten := by
  simpa using servingPreds_append f bs []

/-! ## The three source files and the calls their code cells make

Each notebook's code cells do their work by calling into external modules;
the lists below enumerate those calls, read off the cells in order, each
tagged with the library it targets and with its role. Repeated calls to the
same callee are listed once. The role tags record a reading of the source:
`modelCompute` marks the steps that construct, train, evaluate or score a
model (graph construction, fit, run_eval, predict, load_model, graph
freezing, session runs); `dataPrep` marks dataset download, preprocessing
and batch iteration; `plumbing` marks path handling, printing, timing,
serialization and file I/O. -/

/-- The library a notebook call targets. -/
inductive CallOrigin where
  | recoDeeprec : CallOrigin
  | recoDataset : CallOrigin
  | tensorflow : CallOrigin
  | numpy : CallOrigin
  | scrapbook : CallOrigin
  | pythonStd : CallOrigin
deriving DecidableEq, Repr

/-- The role of a notebook call. -/
inductive CallRole where
  | modelCompute : CallRole
  | dataPrep : CallRole
  | plumbing : CallRole
deriving DecidableEq, Repr

/-- A call made by a notebook code cell. -/
structure NotebookCall where
  callee : String
  origin : CallOrigin
  role : CallRole
deriving DecidableEq, Repr

/-- An origin is framework-bound when it is the deep-learning framework
itself or the repository's framework-bound deeprec model code. -/
def frameworkBound : CallOrigin → Bool
  | CallOrigin.recoDeeprec => true
  | CallOrigin.tensorflow => true
  | _ => false

/-- The calls made by the code cells of
`sequential_recsys_amazondataset.ipynb`, in cell order. -/
def seqNotebookCalls : List NotebookCall :=
  [ ⟨ "sys.path.append", CallOrigin.pythonStd, CallRole.plumbing ⟩,
    ⟨ "os.path.join", CallOrigin.pythonStd, CallRole.plumbing ⟩,
    ⟨ "os.path.exists", CallOrigin.pythonStd, CallRole.plumbing ⟩,
    ⟨ "print", CallOrigin.pythonStd, CallRole.plumbing ⟩,
    ⟨ "download_and_extract", CallOrigin.recoDataset, CallRole.dataPrep ⟩,
    ⟨ "data_preprocessing", CallOrigin.recoDataset, CallRole.dataPrep ⟩,
    ⟨ "prepare_hparams", CallOrigin.recoDeeprec, CallRole.plumbing ⟩,
    ⟨ "SequentialIterator", CallOrigin.recoDeeprec, CallRole.dataPrep ⟩,
    ⟨ "SLI_RECModel", CallOrigin.recoDeeprec, CallRole.modelCompute ⟩,
    ⟨ "model.run_eval", CallOrigin.recoDeeprec, CallRole.modelCompute ⟩,
    ⟨ "time.time", CallOrigin.pythonStd, CallRole.plumbing ⟩,
    ⟨ "model.fit", CallOrigin.recoDeeprec, CallRole.modelCompute ⟩,
    ⟨ "sb.glue", CallOrigin.scrapbook, CallRole.plumbing ⟩,
    ⟨ "model.predict", CallOrigin.recoDeeprec, CallRole.modelCompute ⟩,
    ⟨ "model.load_model", CallOrigin.recoDeeprec, CallRole.modelCompute ⟩,
    ⟨ "graph.as_graph_def", CallOrigin.tensorflow, CallRole.plumbing ⟩,
    ⟨ "tf.graph_util.convert_variables_to_constants", CallOrigin.tensorflow,
      CallRole.modelCompute ⟩,
    ⟨ "tf.gfile.GFile", CallOrigin.tensorflow, CallRole.plumbing ⟩,
    ⟨ "output_graph_def.SerializeToString", CallOrigin.tensorflow,
      CallRole.plumbing ⟩,
    ⟨ "tf.Graph", CallOrigin.tensorflow, CallRole.plumbing ⟩,
    ⟨ "tf.GraphDef", CallOrigin.tensorflow, CallRole.plumbing ⟩,
    ⟨ "graph_def_optimized.ParseFromString", CallOrigin.tensorflow,
      CallRole.plumbing ⟩,
    ⟨ "tf.Session", CallOrigin.tensorflow, CallRole.plumbing ⟩,
    ⟨ "tf.import_graph_def", CallOrigin.tensorflow, CallRole.plumbing ⟩,
    ⟨ "graph.get_tensor_by_name", CallOrigin.tensorflow, CallRole.plumbing ⟩,
    ⟨ "iterator.load_data_from_file", CallOrigin.recoDeeprec, CallRole.dataPrep ⟩,
    ⟨ "np.ones", CallOrigin.numpy, CallRole.plumbing ⟩,
    ⟨ "sess.run", CallOrigin.tensorflow, CallRole.modelCompute ⟩,
    ⟨ "np.reshape", CallOrigin.numpy, CallRole.plumbing ⟩,
    ⟨ "open", CallOrigin.pythonStd, CallRole.plumbing ⟩,
    ⟨ "wt.write", CallOrigin.pythonStd, CallRole.plumbing ⟩ ]

/-- The calls made by the code cells of `xdeepfm_criteo.ipynb`,
in cell order. -/
def xdeepfmNotebookCalls : List NotebookCall :=
  [ ⟨ "sys.path.append", CallOrigin.pythonStd, CallRole.plumbing ⟩,
    ⟨ "print", CallOrigin.pythonStd, CallRole.plumbing ⟩,
    ⟨ "TemporaryDirectory", CallOrigin.pythonStd, CallRole.plumbing ⟩,
    ⟨ "os.path.join", CallOrigin.pythonStd, CallRole.plumbing ⟩,
    ⟨ "os.path.exists", CallOrigin.pythonStd, CallRole.plumbing ⟩,
    ⟨ "download_deeprec_resources", CallOrigin.recoDeeprec, CallRole.dataPrep ⟩,
    ⟨ "prepare_hparams", CallOrigin.recoDeeprec, CallRole.plumbing ⟩,
    ⟨ "FFMTextIterator", CallOrigin.recoDeeprec, CallRole.dataPrep ⟩,
    ⟨ "XDeepFMModel", CallOrigin.recoDeeprec, CallRole.modelCompute ⟩,
    ⟨ "model.run_eval", CallOrigin.recoDeeprec, CallRole.modelCompute ⟩,
    ⟨ "model.fit", CallOrigin.recoDeeprec, CallRole.modelCompute ⟩,
    ⟨ "model.predict", CallOrigin.recoDeeprec, CallRole.modelCompute ⟩,
    ⟨ "sb.glue", CallOrigin.scrapbook, CallRole.plumbing ⟩,
    ⟨ "tmpdir.cleanup", CallOrigin.pythonStd, CallRole.plumbing ⟩ ]

/-- The kind of a source file of the snapshot: CI pipeline configuration, or
an example notebook with the calls its cells make. -/
inductive SourceFileKind where
  | ciPipelineConfig : SourceFileKind
  | exampleNotebook (calls : List NotebookCall) : SourceFileKind
deriving DecidableEq, Repr

/-- A source file of the snapshot. -/
structure SourceFile where
  path : String
  kind : SourceFileKind
deriving DecidableEq, Repr

/-- The three source files of the repository snapshot. -/
def sourceFiles : List SourceFile :=
  [ ⟨ "src/unnamed/part_000", SourceFileKind.ciPipelineConfig ⟩,
    ⟨ "src/examples/00_quick_start/sequential_recsys_amazondataset.ipynb",
      SourceFileKind.exampleNotebook seqNotebookCalls ⟩,
    ⟨ "src/examples/00_quick_start/xdeepfm_criteo.ipynb",
      SourceFileKind.exampleNotebook xdeepfmNotebookCalls ⟩ ]

/-- Whether a file is an example notebook. -/
def isExampleNotebook (f : SourceFile) : Bool :=
  match f.kind with
  | SourceFileKind.ciPipelineConfig => false
  | SourceFileKind.exampleNotebook _ => true

/-- Whether every model-computing call of a file goes through the deep
learning framework or the repository's framework-bound deeprec model code
(vacuously true of the CI configuration file, which runs no model code). -/
def notebookComputeViaFramework (f : SourceFile) : Bool :=
  match f.kind with
  | SourceFileKind.ciPipelineConfig => true
  | SourceFileKind.exampleNotebook calls =>
      calls.all fun c =>
        if c.role = CallRole.modelCompute then frameworkBound c.origin else true

/-- **C1.** Every prediction score the serving code produces comes from a
session run of a framework graph node: any score in the list accumulated by
`infer_as_serving` is an element of the flattened `sess.run` result of the
`pred` node on one of the truthy batches — the serving loop is parametric in
the session-run function and performs no arithmetic of its own — and in every
source file every model-computing step is a call into the framework or the
framework-bound deeprec model code, so no source file computes a score by
framework-free arithmetic. -/
theorem serving_scores_from_session_runs {β α : Type}
    (sessRunPred : β → List α) (batches : List (Option β)) (p : α)
    (hp : p ∈ servingPreds sessRunPred batches) :
    (∃ b : β, some b ∈ batches ∧ p ∈ sessRunPred b) ∧
      sourceFiles.all notebookComputeViaFramework = true := by
  constructor
  · rw [servingPreds_eq_flatten] at hp
    rcases List.mem_flatten.mp hp with ⟨l, hl, hpl⟩
    rcases List.mem_map.mp hl with ⟨b, hb, rfl⟩
    rcases List.mem_filterMap.mp hb with ⟨ob, hob, hid⟩
    cases hid
    exact ⟨b, hob, hpl⟩
  · decide

/-- Witness for C1 at a concrete session-run function and batch list. -/
theorem serving_scores_from_session_runs_witness :
    ((3 : Nat) ∈ servingPreds (fun n : Nat => [n]) [some 3, none]) ∧
      (∃ b : Nat, some b ∈ [some 3, none] ∧ (3 : Nat) ∈ [b]) := by
  have hmem : (3 : Nat) ∈ servingPreds (fun n : Nat => [n]) [some 3, none] := by
    decide
  exact ⟨hmem,
    (serving_scores_from_session_runs (fun n : Nat => [n]) [some 3, none] 3 hmem).1⟩

/-- **C6.** `infer_as_serving` writes to the output file exactly one line per
prediction score — the per-batch session-run results of the truthy batches
flattened in iterator order — skips the batches for which the iterator
yielded a falsy value, and opens the output file in write mode so the result
is independent of the file's previous content; every other path of the file
system is left unchanged. -/
theorem infer_as_serving_output_spec {β α : Type} (fmt : α → String)
    (sessRunPred : β → List α) (batches : List (Option β)) (outfile : String)
    (fs fs2 : String → List String) :
    (infer_as_serving fmt sessRunPred batches outfile fs) outfile =
        (((batches.filterMap id).map sessRunPred).flatten).map fmt ∧
      ((infer_as_serving fmt sessRunPred batches outfile fs) outfile).length =
        (servingPreds sessRunPred batches).length ∧
      (infer_as_serving fmt sessRunPred batches outfile fs) outfile =
        (infer_as_serving fmt sessRunPred batches outfile fs2) outfile ∧
      ∀ path : String, path ≠ outfile →
        (infer_as_serving fmt sessRunPred batches outfile fs) path = fs path := by
  refine ⟨?_, ?_, ?_, ?_⟩
  · simp [infer_as_serving, servingPreds_eq_flatten]
  · simp [infer_as_serving]
  · simp [infer_as_serving]
  · intro path hpath
    simp [infer_as_serving, hpath]

/-- Witness for C6: on a concrete run, a path other than the output file
keeps its previous content. -/
theorem infer_as_serving_output_spec_witness :
    (infer_as_serving (fun n : Nat => toString n) (fun n : Nat => [n, n + 1])
        [some 2, none, some 5] "output_serving.txt" (fun _ => ["old"]))
        "output.txt" = ["old"] := by
  have h := infer_as_serving_output_spec (fun n : Nat => toString n)
    (fun n : Nat => [n, n + 1]) [some 2, none, some 5] "output_serving.txt"
    (fun _ => ["old"]) (fun _ => [])
  exact h.2.2.2 "output.txt" (by decide)

/-- **C2.** Each of the three source files is either CI pipeline
configuration or an example notebook all of whose model-computing steps are
calls into the framework-bound ML model code: no source file carries a
self-contained, framework-independent algorithmic core. -/
theorem each_source_file_config_or_framework_notebook (f : SourceFile)
    (hf : f ∈ sourceFiles) :
    f.kind = SourceFileKind.ciPipelineConfig ∨
      (isExampleNotebook f = true ∧ notebookComputeViaFramework f = true) := by
  simp only [sourceFiles, List.mem_cons, List.not_mem_nil, or_false] at hf
  rcases hf with rfl | rfl | rfl
  · exact Or.inl rfl
  · exact Or.inr ⟨rfl, by decide⟩
  · exact Or.inr ⟨rfl, by decide⟩

/-- Witness for C2 at the xDeepFM notebook source file. -/
theorem each_source_file_config_or_framework_notebook_witness :
    isExampleNotebook
        (SourceFile.mk "src/examples/00_quick_start/xdeepfm_criteo.ipynb"
          (SourceFileKind.exampleNotebook xdeepfmNotebookCalls)) = true ∧
      notebookComputeViaFramework
        (SourceFile.mk "src/examples/00_quick_start/xdeepfm_criteo.ipynb"
          (SourceFileKind.exampleNotebook xdeepfmNotebookCalls)) = true := by
  have h := each_source_file_config_or_framework_notebook
    (SourceFile.mk "src/examples/00_quick_start/xdeepfm_criteo.ipynb"
      (SourceFileKind.exampleNotebook xdeepfmNotebookCalls)) (by decide)
  exact h.resolve_left (by decide)

/-! ## The in-framework prediction path and the frozen serving graph -/

/-- Modelled from the spec: `model.predict(infile, outfile)` is implemented in
`reco_utils.recommender.deeprec.models.sequential.sequential_base_model`,
which is not part of the snapshot. Per the notebook (prediction cells 11 and
15 and the serving-consistency note before cell 19), predict iterates the
batches of the input file with `batch_num_ngs=0`, skips falsy batches, runs
the model graph's `pred` node on the model's current variable values through
its session, and writes the flattened scores, one formatted line per score,
to the output file. The model graph's `pred` node is a function `graphPred`
of the variable values and the batch. -/
def predictOutput {π β α : Type} (fmt : α → String) (graphPred : π → β → List α)
    (params : π) : List (Option β) → List String
  | [] => []
  | none :: rest => predictOutput fmt graphPred params rest
  | some b :: rest =>
      (graphPred params b).map fmt ++ predictOutput fmt graphPred params rest

/-- Modelled from the spec: `tf.graph_util.convert_variables_to_constants`
(notebook cell 16) is the framework's graph freezer, not repository code; it
captures the session's current variable values as constants of the exported
graph while keeping the `pred` output node, so running the frozen graph on a
batch is running the model graph at the captured variable values. -/
def convert_variables_to_constants {π β α : Type} (graphPred : π → β → List α)
    (params : π) : β → List α :=
  fun b => graphPred params b

/-- **C4.** For the same trained variable values and the same batches parsed
from the test input file, the serving path — `infer_as_serving` running the
frozen graph — writes to `output_serving.txt` exactly the lines the model's
own `predict` writes to `output.txt`, in the same order. -/
theorem serving_file_matches_predict_file {π β α : Type} (fmt : α → String)
    (graphPred : π → β → List α) (params : π) (batches : List (Option β))
    (outfile : String) (fs : String → List String) :
    (infer_as_serving fmt (convert_variables_to_constants graphPred params)
        batches outfile fs) outfile =
      predictOutput fmt graphPred params batches := by
  have key : ∀ bs : List (Option β),
      (((bs.filterMap id).map
          (convert_variables_to_constants graphPred params)).flatten).map fmt =
        predictOutput fmt graphPred params bs := by
    intro bs
    induction bs with
    | nil => simp [predictOutput]
    | cons hd tl ih =>
      cases hd with
      | none => simpa [predictOutput] using ih
      | some b => simp [predictOutput, convert_variables_to_constants, ih]
  simp only [infer_as_serving, if_pos rfl, servingPreds_eq_flatten]
  exact key batches

/-! ## Checkpoint save/load round-trip of the sequential model -/

/-- The hyper-parameters the sequential notebook passes to `prepare_hparams`
(cell 5) that the model keeps. -/
structure SeqHparams where
  embed_l2 : Rat
  layer_l2 : Rat
  learning_rate : Rat
  epochs : Nat
  batch_size : Nat
  show_step : Nat
  MODEL_DIR : String
  SUMMARIES_DIR : String
  user_vocab : String
  item_vocab : String
  cate_vocab : String
  need_sample : Bool
  train_num_ngs : Nat
deriving DecidableEq, Repr

/-- The files and negative-sample count `fit` is called with. -/
structure TrainFiles where
  train_file : String
  valid_file : String
  valid_num_ngs : Nat
deriving DecidableEq, Repr

/-- A checkpoint saved under `MODEL_DIR`: the saved variable values. -/
structure Checkpoint (π : Type) where
  params : π
deriving DecidableEq, Repr

/-- A constructed sequential model: its hyper-parameters, seed, and current
variable values. -/
structure SLI_RECModel (π : Type) where
  hparams : SeqHparams
  seed : Nat
  params : π
deriving DecidableEq, Repr

/-- Modelled from the spec: `SLI_RECModel(hparams, input_creator, seed)`
(notebook cells 7 and 13; `reco_utils.recommender.deeprec.models.sequential.
sli_rec`, not in the snapshot) builds the graph and initializes the variables
deterministically from the hyper-parameters and the seed; `init` is the
framework's seeded initializer. -/
def mkSeqModel {π : Type} (init : SeqHparams → Nat → π)
    (hp : SeqHparams) (seed : Nat) : SLI_RECModel π :=
  ⟨hp, seed, init hp seed⟩

/-- Modelled from the spec: `fit(train_file, valid_file, valid_num_ngs)`
(`sequential_base_model.fit`, not in the snapshot) trains the variables and
saves the best-performing model under `MODEL_DIR`, returning the trained
model in that saved state — the notebook's outputs show the loaded best
checkpoint reproducing the trained model's test metrics exactly. `trainFn`
is the framework's gradient-descent training loop. -/
def fit {π : Type} (trainFn : π → TrainFiles → π) (m : SLI_RECModel π)
    (files : TrainFiles) : SLI_RECModel π × Checkpoint π :=
  (⟨m.hparams, m.seed, trainFn m.params files⟩, ⟨trainFn m.params files⟩)

/-- Modelled from the spec: `load_model(path)` (`base_model.load_model`, not
in the snapshot) restores the checkpoint's saved variable values into the
model. -/
def load_model {π : Type} (m : SLI_RECModel π) (c : Checkpoint π) :
    SLI_RECModel π :=
  ⟨m.hparams, m.seed, c.params⟩

/-- Modelled from the spec: `run_eval(test_file, num_ngs)`
(`sequential_base_model.run_eval`, not in the snapshot) computes the metrics
dictionary by running the evaluation graph, with dropout disabled, over the
test file: a deterministic function `evalFn` of the hyper-parameters, the
variable values, the test file and `num_ngs`. -/
def run_eval {π μ : Type} (evalFn : SeqHparams → π → String → Nat → μ)
    (m : SLI_RECModel π) (testFile : String) (numNgs : Nat) : μ :=
  evalFn m.hparams m.params testFile numNgs

/-- **C5.** After `fit` saves the best model under `MODEL_DIR`, constructing
a fresh model with the same hyper-parameters and seed and calling
`load_model` on that checkpoint yields a model whose `run_eval` on the same
test file with the same `num_ngs` returns the same metrics dictionary as
`run_eval` of the originally trained model. -/
theorem checkpoint_roundtrip_preserves_eval {π μ : Type}
    (init : SeqHparams → Nat → π) (trainFn : π → TrainFiles → π)
    (evalFn : SeqHparams → π → String → Nat → μ) (hp : SeqHparams) (seed : Nat)
    (files : TrainFiles) (testFile : String) (numNgs : Nat) :
    run_eval evalFn
        (load_model (mkSeqModel init hp seed)
          (fit trainFn (mkSeqModel init hp seed) files).2)
        testFile numNgs =
      run_eval evalFn (fit trainFn (mkSeqModel init hp seed) files).1
        testFile numNgs :=
  rfl

/-! ## Hyper-parameter switches, model components and iterators -/

/-- The `use_*` component switches among the deeprec hyper-parameters, as
printed by the xDeepFM notebook's hparams output (cell 4). -/
structure DeeprecFlags where
  use_Linear_part : Bool
  use_FM_part : Bool
  use_CIN_part : Bool
  use_DNN_part : Bool
deriving DecidableEq, Repr

/-- The `use_*` defaults of the `xDeepFM.yaml` config shipped with the
notebook's resources, as the notebook's printed hparams show: only
`use_CIN_part` is on. -/
def xDeepFMYamlFlags : DeeprecFlags := ⟨false, false, true, false⟩

/-- One keyword argument of `prepare_hparams` applied to the switches: the
named switch is overwritten, any other keyword leaves them unchanged. -/
def applyFlagKwarg (hp : DeeprecFlags) (kv : String × Bool) : DeeprecFlags :=
  if kv.1 = "use_Linear_part" then
    ⟨kv.2, hp.use_FM_part, hp.use_CIN_part, hp.use_DNN_part⟩
  else if kv.1 = "use_FM_part" then
    ⟨hp.use_Linear_part, kv.2, hp.use_CIN_part, hp.use_DNN_part⟩
  else if kv.1 = "use_CIN_part" then
    ⟨hp.use_Linear_part, hp.use_FM_part, kv.2, hp.use_DNN_part⟩
  else if kv.1 = "use_DNN_part" then
    ⟨hp.use_Linear_part, hp.use_FM_part, hp.use_CIN_part, kv.2⟩
  else hp

/-- `prepare_hparams(yaml_file, ...)` restricted to the component switches:
the yaml values, overwritten by the function's keyword arguments — the
overwriting behaviour both notebooks document in their hyper-parameter
cells. -/
def prepare_hparams (yaml : DeeprecFlags) (kwargs : List (String × Bool)) :
    DeeprecFlags :=
  kwargs.foldl applyFlagKwarg yaml

/-- The sub-graphs of the xDeepFM model. -/
inductive XDeepFMPart where
  | linear : XDeepFMPart
  | fm : XDeepFMPart
  | cin : XDeepFMPart
  | dnn : XDeepFMPart
deriving DecidableEq, Repr

/-- Modelled from the spec: `XDeepFMModel` builds the linear, FM, CIN and DNN
sub-graphs exactly when the corresponding `use_*` hyper-parameter is on
(`reco_utils.recommender.deeprec.models.xDeepFM`, not in the snapshot); the
notebook outputs show `Add linear part.` / `Add CIN part.` / `Add DNN part.`
accordingly. -/
def xdeepfmParts (hp : DeeprecFlags) : List XDeepFMPart :=
  (if hp.use_Linear_part then [XDeepFMPart.linear] else []) ++
    (if hp.use_FM_part then [XDeepFMPart.fm] else []) ++
    (if hp.use_CIN_part then [XDeepFMPart.cin] else []) ++
    (if hp.use_DNN_part then [XDeepFMPart.dnn] else [])

/-- The architectural pieces of the SLi_Rec sequential model. -/
inductive SeqComponent where
  | asvdLongTerm : SeqComponent
  | timeAwareRnnCell : SeqComponent
  | attentionFusion : SeqComponent
deriving DecidableEq, Repr

/-- Modelled from the spec: the SLi_Rec implementation combines the attentive
Asymmetric-SVD long-term component, an LSTM cell with modified gating logic
accounting for time and semantic irregularity (the custom RNN cell of
`rnn_cell_implement.py`, not in the snapshot), and an attention mechanism
fusing the long- and short-term components — the three key properties the
sequential notebook's introduction lists. -/
def sliRecComponents : List SeqComponent :=
  [SeqComponent.asvdLongTerm, SeqComponent.timeAwareRnnCell,
   SeqComponent.attentionFusion]

/-- The data iterators of the deeprec models. -/
inductive IteratorKind where
  | FFMTextIterator : IteratorKind
  | SequentialIterator : IteratorKind
  | NextItNetIterator : IteratorKind
deriving DecidableEq, Repr

/-- The `input_creator` the xDeepFM notebook designates (cell 5). -/
def xdeepfmInputCreator : IteratorKind := IteratorKind.FFMTextIterator

/-- The `input_creator` the sequential notebook designates (cell 6). -/
def seqInputCreator : IteratorKind := IteratorKind.SequentialIterator

/-- The sparse input format each iterator parses, per the notebooks' input
format cells. -/
def iteratorFormat : IteratorKind → String
  | IteratorKind.FFMTextIterator => "ffm text"
  | IteratorKind.SequentialIterator => "sequential user history"
  | IteratorKind.NextItNetIterator => "sequential user history"

/-- **C7.** The training/evaluation machinery is switched and fed as the spec
says: the linear, CIN and DNN parts of xDeepFM are included exactly when the
`use_Linear_part`, `use_CIN_part`, `use_DNN_part` switches passed to
`prepare_hparams` are on (keyword arguments overwriting the yaml values, as
in the Criteo run); SLi_Rec is built from the custom time-aware RNN cell and
attention-based sequence fusion; and the heterogeneous sparse input formats
are handled by `FFMTextIterator` for FFM-format text and
`SequentialIterator` for sequential user histories, as the two notebooks
designate. -/
theorem machinery_switched_by_hparams (hp : DeeprecFlags) :
    (XDeepFMPart.linear ∈ xdeepfmParts hp ↔ hp.use_Linear_part = true) ∧
      (XDeepFMPart.cin ∈ xdeepfmParts hp ↔ hp.use_CIN_part = true) ∧
      (XDeepFMPart.dnn ∈ xdeepfmParts hp ↔ hp.use_DNN_part = true) ∧
      prepare_hparams xDeepFMYamlFlags
          [("use_Linear_part", true), ("use_CIN_part", true),
           ("use_DNN_part", true)] =
        DeeprecFlags.mk true false true true ∧
      SeqComponent.timeAwareRnnCell ∈ sliRecComponents ∧
      SeqComponent.attentionFusion ∈ sliRecComponents ∧
      xdeepfmInputCreator = IteratorKind.FFMTextIterator ∧
      seqInputCreator = IteratorKind.SequentialIterator ∧
      iteratorFormat xdeepfmInputCreator = "ffm text" ∧
      iteratorFormat seqInputCreator = "sequential user history" := by
  rcases hp with ⟨a, b, c, d⟩
  cases a <;> cases b <;> cases c <;> cases d <;> decide

/-! ## The models the notebooks reach and the data-preprocessing calls -/

/-- A model-class import line of a notebook: the module, the class, and
whether the line is active or one of the commented alternates the notebook
offers. -/
structure ModelImport where
  module : String
  className : String
  active : Bool
deriving DecidableEq, Repr

/-- The model-class import lines of the sequential notebook (cell 1): the
active SLi_Rec import and the alternates the notebook instructs to switch to
for the other sequential models. -/
def seqNotebookModelImports : List ModelImport :=
  [ ⟨ "reco_utils.recommender.deeprec.models.sequential.sli_rec",
      "SLI_RECModel", true ⟩,
    ⟨ "reco_utils.recommender.deeprec.models.sequential.asvd",
      "A2SVDModel", false ⟩,
    ⟨ "reco_utils.recommender.deeprec.models.sequential.caser",
      "CaserModel", false ⟩,
    ⟨ "reco_utils.recommender.deeprec.models.sequential.gru4rec",
      "GRU4RecModel", false ⟩,
    ⟨ "reco_utils.recommender.deeprec.models.sequential.nextitnet",
      "NextItNetModel", false ⟩ ]

/-- The model-class import line of the xDeepFM notebook (cell 1). -/
def xdeepfmNotebookModelImports : List ModelImport :=
  [ ⟨ "reco_utils.recommender.deeprec.models.xDeepFM", "XDeepFMModel", true ⟩ ]

/-- Modelled from the spec: the model implementations the repository
provides, named in the specification's first sentence; the implementing
modules live under `reco_utils`, outside the snapshot. -/
def specNamedModels : List String :=
  ["SLi_Rec", "GRU4Rec", "Caser", "NextItNet", "xDeepFM"]

/-- The class implementing each spec-named model, as the notebooks import
it. -/
def modelClassName (model : String) : String :=
  if model = "SLi_Rec" then "SLI_RECModel"
  else if model = "GRU4Rec" then "GRU4RecModel"
  else if model = "Caser" then "CaserModel"
  else if model = "NextItNet" then "NextItNetModel"
  else if model = "xDeepFM" then "XDeepFMModel"
  else ""

/-- A model class is reachable from the example notebooks when one of
their import lines names it. -/
def reachableFromNotebooks (cls : String) : Bool :=
  (seqNotebookModelImports ++ xdeepfmNotebookModelImports).any fun i =>
    i.className = cls

/-- **C3.** For each of the named models — SLi_Rec, GRU4Rec, Caser,
NextItNet, xDeepFM — an implementing class is reachable from the example
notebooks through an import line naming its module; a CI pipeline source
file is present among the three source files; and the sequential notebook
invokes the data-preprocessing utilities `download_and_extract` and
`data_preprocessing`. -/
theorem models_reachable_ci_present_preprocessing_invoked :
    (specNamedModels.all fun m => reachableFromNotebooks (modelClassName m))
        = true ∧
      (sourceFiles.any fun f =>
          f.kind == SourceFileKind.ciPipelineConfig) = true ∧
      (seqNotebookCalls.any fun c => c.callee = "download_and_extract") = true ∧
      (seqNotebookCalls.any fun c => c.callee = "data_preprocessing") = true := by
  decide

end Recommenders
